import Mathlib

/-!
Verification of the rule-based SEO scoring engine (`lib/seoEngine.ts`,
function `analyzeSeo` and its helpers) against its natural-language
specification.  The TypeScript source is shallowly embedded: JS strings
become Lean `String`s (scanned as `List Char`), JS numbers in this engine
are non-negative integers and become `Nat`, optional fields become
`Option Nat`, and regular-expression scans (all of which are literal /
simple-alternation patterns in the source) become explicit left-to-right,
non-overlapping scanners over character lists.  The single floating-point
operation (`Math.round(semanticRatio * 15)`) is embedded as exact rational
rounding (round half away from zero on non-negative values), which agrees
with the double-precision computation on all the quantities reasoned about
here.
-/

namespace SeoEngine

/-- Mirrors TS `interface SeoInput`.  The three trailing optional numeric
fields (`wordCount?`, `internalLinks?`, `h2Count?`) are `Option Nat`. -/
structure SeoInput where
  url : String
  competitorUrls : List String
  targetKeyword : String
  semanticKeywords : List String
  pageTitle : String
  metaDescription : String
  h1 : String
  bodyContent : String
  wordCount : Option Nat
  internalLinks : Option Nat
  h2Count : Option Nat
deriving Repr

/-- Mirrors TS `type KeywordStatus = 'God' | 'Optimer' | 'Mangler'`
(the spec's Covered / NeedsWork / Missing, in that order). -/
inductive KeywordStatus where
  | God
  | Optimer
  | Mangler
deriving DecidableEq, BEq, Repr

/-- Mirrors TS `interface KeywordResult`. -/
structure KeywordResult where
  keyword : String
  status : KeywordStatus
  currentCount : Nat
  recommendedMin : Nat
  recommendedMax : Nat
deriving DecidableEq, Repr

/-- Recommendation severity: TS string union `'ok' | 'warn' | 'error'`. -/
inductive RecStatus where
  | ok
  | warn
  | error
deriving DecidableEq, BEq, Repr

/-- Mirrors TS `interface RecommendationItem`. -/
structure RecommendationItem where
  id : String
  label : String
  status : RecStatus
  statusLabel : String
  detail : String
deriving DecidableEq, Repr

/-- Mirrors TS `interface ContentGap`. -/
structure ContentGap where
  num : String
  tag : String
  title : String
  description : String
  color : String
deriving DecidableEq, Repr

/-- Quick-win priority: TS string union `'red' | 'yellow' | 'green'`
(the spec's high / medium / low, in that order). -/
inductive Priority where
  | red
  | yellow
  | green
deriving DecidableEq, BEq, Repr

/-- One element of `SeoResult.quickWins`. -/
structure QuickWin where
  priority : Priority
  title : String
  detail : String
deriving DecidableEq, Repr

/-- Mirrors TS `interface SeoResult`. -/
structure SeoResult where
  score : Nat
  maxScore : Nat
  percentage : Nat
  keywords : List KeywordResult
  recommendations : List RecommendationItem
  contentGaps : List ContentGap
  quickWins : List QuickWin
  wordCount : Nat
  keywordsFound : Nat
  keywordsMissing : Nat
  keywordsOptimise : Nat
deriving Repr

/-! ### String primitives (JS semantics) -/

/-- JS `String.prototype.toLowerCase` on one character, for the character
repertoire this engine manipulates: ASCII letters plus the Danish letters
Æ, Ø, Å appearing in the source's pattern strings; identity elsewhere. -/
def jsToLowerChar (c : Char) : Char :=
  if 'A' ≤ c ∧ c ≤ 'Z' then Char.ofNat (c.toNat + 32)
  else if c = 'Æ' then 'æ'
  else if c = 'Ø' then 'ø'
  else if c = 'Å' then 'å'
  else c

/-- JS `toLowerCase` on a string. -/
def jsToLower (s : String) : String :=
  ⟨s.data.map jsToLowerChar⟩

/-- JS `\s` (whitespace) class membership for the characters relevant here. -/
def jsIsSpace (c : Char) : Bool :=
  c == ' ' || c == '\t' || c == '\n' || c == '\r' || c == '\x0b' || c == '\x0c'

/-- Substring test on character lists: `isSubListOf pat l` is true iff `pat`
occurs contiguously in `l` (true for the empty pattern, as with JS
`String.prototype.includes`). -/
def isSubListOf (pat : List Char) : List Char → Bool
  | [] => pat.isEmpty
  | c :: rest => pat.isPrefixOf (c :: rest) || isSubListOf pat rest

/-- JS `s.includes(sub)`. -/
def jsIncludes (s sub : String) : Bool :=
  isSubListOf sub.data s.data

/-- Count of leftmost, non-overlapping occurrences of `pat` in a character
list, exactly as a JS global regex of the escaped literal pattern counts
matches.  After a match the scanner resumes past the matched text; the
first argument is the number of characters still to be skipped, so the
recursion is structural on the list.  (The `!pat.isEmpty` guard only makes
the function total; every caller already guards against the empty
keyword.) -/
def countOccAux (pat : List Char) : Nat → List Char → Nat
  | _, [] => 0
  | 0, c :: rest =>
      if pat.isPrefixOf (c :: rest) && !pat.isEmpty then
        1 + countOccAux pat (pat.length - 1) rest
      else
        countOccAux pat 0 rest
  | k + 1, _ :: rest => countOccAux pat k rest

/-- Leftmost non-overlapping occurrence count, starting with nothing to skip. -/
def countOccList (pat l : List Char) : Nat :=
  countOccAux pat 0 l

/-- TS `countOccurrences(text, keyword)`: guard on empty text or keyword,
escape the keyword (escaping makes the regex a literal pattern, so it is
embedded as plain substring counting), lower-case both sides, count
non-overlapping matches. -/
def countOccurrences (text keyword : String) : Nat :=
  if text = "" ∨ keyword = "" then 0
  else countOccList (jsToLower keyword).data (jsToLower text).data

/-- TS `fullText(input)`: join title, meta description, H1 and body with
single spaces, lower-cased. -/
def fullText (input : SeoInput) : String :=
  jsToLower (String.intercalate (" ")
    [input.pageTitle, input.metaDescription, input.h1, input.bodyContent])

/-- Word counter matching TS `bodyContent.split(/\s+/).filter(Boolean).length`:
the number of maximal runs of non-whitespace characters.  The boolean flag
records whether the previous character belonged to a word. -/
def countWordsAux : Bool → List Char → Nat
  | _, [] => 0
  | inWord, c :: rest =>
      if jsIsSpace c then countWordsAux false rest
      else (if inWord then 0 else 1) + countWordsAux true rest

/-- TS `input.wordCount ?? input.bodyContent.split(/\s+/).filter(Boolean).length`. -/
def wordCountVal (input : SeoInput) : Nat :=
  match input.wordCount with
  | some n => n
  | none => countWordsAux false input.bodyContent.data

/-- Counter for the TS regex `/##|<h2/gi` (applied to lower-cased text):
leftmost non-overlapping occurrences of `##` or `<h2`. -/
def countH2 : List Char → Nat
  | [] => 0
  | '#' :: '#' :: rest => 1 + countH2 rest
  | '<' :: 'h' :: '2' :: rest => 1 + countH2 rest
  | _ :: rest => countH2 rest

/-- TS `input.h2Count ?? (input.bodyContent.match(/##|<h2/gi) || []).length`. -/
def h2CountVal (input : SeoInput) : Nat :=
  match input.h2Count with
  | some n => n
  | none => countH2 (jsToLower input.bodyContent).data

/-! ### Link detection (TS score component 8) -/

/-- Generic leftmost non-overlapping match counter: `f` returns the length
(≥ 1) of a match starting at the head of the list, or `none`.  The first
argument is the number of characters of the current match still to be
skipped, making the recursion structural on the list. -/
def countRxAux (f : List Char → Option Nat) : Nat → List Char → Nat
  | _, [] => 0
  | 0, c :: rest =>
      match f (c :: rest) with
      | some n => 1 + countRxAux f (n - 1) rest
      | none => countRxAux f 0 rest
  | k + 1, _ :: rest => countRxAux f k rest

/-- Leftmost non-overlapping match count, starting with nothing to skip. -/
def countRx (f : List Char → Option Nat) (l : List Char) : Nat :=
  countRxAux f 0 l

/-- Matcher for the TS markdown-link regex `/\[([^\]]+)\]\(([^)]+)\)/g` at the
head of the list: `[text](url)` with non-empty bracketed parts.  Both
character classes exclude their own closing delimiter, so the greedy match
is deterministic. -/
def mdLinkLen (l : List Char) : Option Nat :=
  match l with
  | '[' :: rest =>
      let t := rest.takeWhile (fun c => c != ']')
      if t.isEmpty then none
      else
        match rest.drop t.length with
        | ']' :: '(' :: rest2 =>
            let u := rest2.takeWhile (fun c => c != ')')
            if u.isEmpty then none
            else
              match rest2.drop u.length with
              | ')' :: _ => some (t.length + u.length + 4)
              | _ => none
        | _ => none
  | _ => none

/-- Character class `[^\s<>"]` of the TS bare-URL regex. -/
def urlChar (c : Char) : Bool :=
  !(jsIsSpace c || c == '<' || c == '>' || c == '"')

/-- Matcher for the TS regex `/https?:\/\/[^\s<>"]+/gi` at the head of a
lower-cased list (the optional `s` is tried greedily first, as the regex
engine does). -/
def urlLen : List Char → Option Nat
  | 'h' :: 't' :: 't' :: 'p' :: 's' :: ':' :: '/' :: '/' :: rest =>
      let t := rest.takeWhile urlChar
      if t.isEmpty then none else some (8 + t.length)
  | 'h' :: 't' :: 't' :: 'p' :: ':' :: '/' :: '/' :: rest =>
      let t := rest.takeWhile urlChar
      if t.isEmpty then none else some (7 + t.length)
  | _ => none

/-- Matcher for the TS regex `/<a[^>]+href/gi` at the head of a lower-cased
list.  The greedy `[^>]+` consumes the longest run of non-`>` characters
that is still followed by `href`; `ks.getLast?` picks that longest run. -/
def htmlLinkLen : List Char → Option Nat
  | '<' :: 'a' :: rest =>
      let r := rest.takeWhile (fun c => c != '>')
      let ks := (List.range (r.length + 1)).filter
        (fun k => decide (1 ≤ k) && (['h', 'r', 'e', 'f'].isPrefixOf (r.drop k)))
      match ks.getLast? with
      | some k => some (2 + k + 4)
      | none => none
  | _ => none

/-- TS score component 8 input: `internalLinks ?? 0`, and when that value is
`0`, heuristic detection over `bodyContent + ' ' + pageTitle + ' ' +
metaDescription` (markdown links plus bare URLs plus HTML anchors).  Note
that an explicitly supplied `0` is indistinguishable from an absent value
here. -/
def internalLinksVal (input : SeoInput) : Nat :=
  let supplied := input.internalLinks.getD 0
  if supplied = 0 then
    let allContent :=
      input.bodyContent ++ " " ++ input.pageTitle ++ " " ++ input.metaDescription
    let lower := jsToLower allContent
    countRx mdLinkLen allContent.data + countRx urlLen lower.data
      + countRx htmlLinkLen lower.data
  else supplied

/-! ### The eight score factors -/

/-- TS `titleHasKeyword`. -/
def titleHasKeyword (input : SeoInput) : Bool :=
  jsIncludes (jsToLower input.pageTitle) (jsToLower input.targetKeyword)

/-- TS `titleGoodLength` (`length >= 30 && length <= 65`). -/
def titleGoodLength (input : SeoInput) : Bool :=
  decide (30 ≤ input.pageTitle.length ∧ input.pageTitle.length ≤ 65)

/-- Score component 1, Title tag (15 pts): +10 keyword, +5 length. -/
def scoreTitle (input : SeoInput) : Nat :=
  (if titleHasKeyword input then 10 else 0)
    + (if titleGoodLength input then 5 else 0)

/-- TS `metaHasKeyword`. -/
def metaHasKeyword (input : SeoInput) : Bool :=
  jsIncludes (jsToLower input.metaDescription) (jsToLower input.targetKeyword)

/-- TS `metaGoodLength` (`length >= 120 && length <= 160`). -/
def metaGoodLength (input : SeoInput) : Bool :=
  decide (120 ≤ input.metaDescription.length ∧ input.metaDescription.length ≤ 160)

/-- Score component 2, Meta description (15 pts): +8 keyword, +7 length. -/
def scoreMeta (input : SeoInput) : Nat :=
  (if metaHasKeyword input then 8 else 0)
    + (if metaGoodLength input then 7 else 0)

/-- TS `h1HasKeyword`. -/
def h1HasKeyword (input : SeoInput) : Bool :=
  jsIncludes (jsToLower input.h1) (jsToLower input.targetKeyword)

/-- TS `h1Present` (`h1.length > 0`). -/
def h1Present (input : SeoInput) : Bool :=
  decide (0 < input.h1.length)

/-- Score component 3, H1 (10 pts): +5 present, +5 keyword. -/
def scoreH1 (input : SeoInput) : Nat :=
  (if h1Present input then 5 else 0) + (if h1HasKeyword input then 5 else 0)

/-- Score component 4, Content length (20 pts), tiered by word count. -/
def scoreContent (input : SeoInput) : Nat :=
  let wc := wordCountVal input
  if 800 ≤ wc then 20
  else if 500 ≤ wc then 14
  else if 300 ≤ wc then 8
  else if 150 ≤ wc then 4
  else 0

/-- TS `targetCount = countOccurrences(text, input.targetKeyword)`. -/
def targetCount (input : SeoInput) : Nat :=
  countOccurrences (fullText input) input.targetKeyword

/-- Score component 5, target-keyword density (15 pts), tiered. -/
def scoreDensity (input : SeoInput) : Nat :=
  let c := targetCount input
  if 6 ≤ c then 15
  else if 4 ≤ c then 10
  else if 2 ≤ c then 5
  else if 1 ≤ c then 2
  else 0

/-- TS `semanticCovered`: semantic keywords occurring at least once. -/
def semanticCovered (input : SeoInput) : Nat :=
  (input.semanticKeywords.filter
    (fun kw => decide (1 ≤ countOccurrences (fullText input) kw))).length

/-- TS `semanticTotal = input.semanticKeywords.length || 1`. -/
def semanticTotal (input : SeoInput) : Nat :=
  if input.semanticKeywords.length = 0 then 1 else input.semanticKeywords.length

/-- Score component 6, semantic coverage (15 pts):
`Math.round((covered / total) * 15)` embedded as exact rational rounding,
`round(15 * c / t) = (30 * c + t) / (2 * t)` in natural division. -/
def scoreSemantic (input : SeoInput) : Nat :=
  (30 * semanticCovered input + semanticTotal input) / (2 * semanticTotal input)

/-- Score component 7, Subheadings (5 pts): `>=2 → 5`, `>=1 → 3`, else 0. -/
def scoreSubheadings (input : SeoInput) : Nat :=
  if 2 ≤ h2CountVal input then 5
  else if 1 ≤ h2CountVal input then 3
  else 0

/-- Score component 8, Internal links (5 pts): binary, any link scores 5. -/
def scoreLinks (input : SeoInput) : Nat :=
  if 1 ≤ internalLinksVal input then 5 else 0

/-- The accumulated TS `score` variable: the sum of the eight components. -/
def rawScore (input : SeoInput) : Nat :=
  scoreTitle input + scoreMeta input + scoreH1 input + scoreContent input
    + scoreDensity input + scoreSemantic input + scoreSubheadings input
    + scoreLinks input

/-- TS `percentage = Math.min(Math.round(score), 100)`; `score` is an
integer, so `Math.round` is the identity. -/
def percentageVal (input : SeoInput) : Nat :=
  min (rawScore input) 100

/-! ### Keyword table -/

/-- TS `allKeywords = [input.targetKeyword, ...input.semanticKeywords].filter(Boolean)`:
the only falsy string is the empty string, so `filter(Boolean)` drops
exactly the empty entries. -/
def allKeywords (input : SeoInput) : List String :=
  (input.targetKeyword :: input.semanticKeywords).filter (fun s => s != "")

/-- The body of the TS `allKeywords.map(kw => ...)` building one
`KeywordResult`. -/
def mkKeywordResult (input : SeoInput) (kw : String) : KeywordResult :=
  let count := countOccurrences (fullText input) kw
  let isTarget := kw = input.targetKeyword
  let recMin := if isTarget then 5 else 2
  let recMax := if isTarget then 9 else 4
  { keyword := kw
    status :=
      if count = 0 then KeywordStatus.Mangler
      else if count < recMin then KeywordStatus.Optimer
      else KeywordStatus.God
    currentCount := count
    recommendedMin := recMin
    recommendedMax := recMax }

/-- TS `keywordResults`. -/
def keywordResults (input : SeoInput) : List KeywordResult :=
  (allKeywords input).map (mkKeywordResult input)

/-- TS `keywordsFound` (status `God`). -/
def keywordsFoundVal (input : SeoInput) : Nat :=
  ((keywordResults input).filter (fun k => k.status == KeywordStatus.God)).length

/-- TS `keywordsOptimise` (status `Optimer`). -/
def keywordsOptimiseVal (input : SeoInput) : Nat :=
  ((keywordResults input).filter (fun k => k.status == KeywordStatus.Optimer)).length

/-- TS `keywordsMissing` (status `Mangler`). -/
def keywordsMissingVal (input : SeoInput) : Nat :=
  ((keywordResults input).filter (fun k => k.status == KeywordStatus.Mangler)).length

/-- TS `missingKeywords = keywordResults.filter(k => k.status === 'Mangler').map(k => k.keyword)`. -/
def missingKeywords (input : SeoInput) : List String :=
  ((keywordResults input).filter (fun k => k.status == KeywordStatus.Mangler)).map
    (fun k => k.keyword)

/-! ### FAQ detection

The source evaluates the same IIFE once inside the `faq` recommendation
item and once before the quick-win check; the two copies are embedded as
two separate definitions with identical bodies (claim C9 is about their
agreement). -/

/-- FAQ detector as evaluated by the recommendation generator:
lower-case `bodyContent + h1 + pageTitle`, strip `_`, `*`, `#`, then test
`/(faq|ofte stillede spørgsmål|spørgsmål og svar|q&a|questions)/i`. -/
def hasFaqRec (input : SeoInput) : Bool :=
  let cleanText :=
    ((input.bodyContent.data ++ input.h1.data ++ input.pageTitle.data).map
        jsToLowerChar).filter
      (fun c => !(c == '_' || c == '*' || c == '#'))
  isSubListOf ("faq").data cleanText
    || isSubListOf ("ofte stillede spørgsmål").data cleanText
    || isSubListOf ("spørgsmål og svar").data cleanText
    || isSubListOf ("q&a").data cleanText
    || isSubListOf ("questions").data cleanText

/-- FAQ detector as evaluated just before the quick-win checks; same logic
as `hasFaqRec`, duplicated exactly as in the source. -/
def hasFaqQW (input : SeoInput) : Bool :=
  let cleanText :=
    ((input.bodyContent.data ++ input.h1.data ++ input.pageTitle.data).map
        jsToLowerChar).filter
      (fun c => !(c == '_' || c == '*' || c == '#'))
  isSubListOf ("faq").data cleanText
    || isSubListOf ("ofte stillede spørgsmål").data cleanText
    || isSubListOf ("spørgsmål og svar").data cleanText
    || isSubListOf ("q&a").data cleanText
    || isSubListOf ("questions").data cleanText

/-! ### Recommendations -/

/-- The fixed 7-item TS `recommendations` array (Danish detail strings are
transcribed verbatim; `${e}` interpolations become `++ toString e ++`). -/
def recommendationsVal (input : SeoInput) : List RecommendationItem :=
  let tHK := titleHasKeyword input
  let tGL := titleGoodLength input
  let mHK := metaHasKeyword input
  let mGL := metaGoodLength input
  let h1HK := h1HasKeyword input
  let h1P := h1Present input
  let h2C := h2CountVal input
  let wc := wordCountVal input
  let iL := internalLinksVal input
  [ { id := "title"
      label := "Title Tag"
      status := if tHK && tGL then RecStatus.ok
        else if tHK then RecStatus.warn else RecStatus.error
      statusLabel := if tHK && tGL then "Optimised"
        else if tHK then "1 advarsel" else "1 fejl"
      detail :=
        if tHK then
          if tGL then
            "Title tag er god (" ++ toString input.pageTitle.length
              ++ " tegn) og indeholder target keyword."
          else
            "Title tag indeholder keyword, men er "
              ++ toString input.pageTitle.length
              ++ " tegn. Optimal længde: 30–65 tegn."
        else
          "Title tag mangler target keyword \"" ++ input.targetKeyword
            ++ "\". Tilføj det gerne tidligt i titlen." },
    { id := "h1"
      label := "H1"
      status := if h1HK then RecStatus.ok
        else if h1P then RecStatus.warn else RecStatus.error
      statusLabel := if h1HK then "Optimised"
        else if h1P then "1 advarsel" else "1 fejl"
      detail :=
        if h1HK then
          "H1 er optimeret og indeholder \"" ++ input.targetKeyword ++ "\"."
        else if h1P then
          "H1 er til stede, men mangler target keyword. Nuværende H1: \""
            ++ input.h1 ++ "\""
        else
          "Ingen H1 fundet. Tilføj en H1 med target keyword." },
    { id := "subheadings"
      label := "Subheadings"
      status := if 2 ≤ h2C then RecStatus.ok
        else if 1 ≤ h2C then RecStatus.warn else RecStatus.error
      statusLabel := if 2 ≤ h2C then "Optimised" else toString h2C ++ " fundet"
      detail :=
        if 2 ≤ h2C then
          toString h2C ++ " H2-overskrifter fundet. God struktur."
        else
          "Kun " ++ toString h2C
            ++ " H2 fundet. Tilsæt flere underoverskrifter der dækker semantiske keywords." },
    { id := "content"
      label := "Content Length"
      status := if 500 ≤ wc then RecStatus.ok
        else if 300 ≤ wc then RecStatus.warn else RecStatus.error
      statusLabel := if 500 ≤ wc then "Optimised" else "1 fejl"
      detail :=
        "Siden har ~" ++ toString wc ++ " ord. "
          ++ (if 800 ≤ wc then "Fremragende indholdslængde."
            else if 500 ≤ wc then "God, men konkurrenter har typisk 800+ ord."
            else
              "For kort. Google foretrækker 500–800+ ord for konkurrencedygtige søgetermer. Brug handlingsplanen nedenfor til at tilføje indhold.") },
    { id := "links"
      label := "Internal Links"
      status := if 1 ≤ iL then RecStatus.ok else RecStatus.error
      statusLabel := if 1 ≤ iL then "Optimised" else "0 fundet"
      detail :=
        if 1 ≤ iL then
          toString iL ++ " "
            ++ (if iL = 1 then "internt link" else "interne links")
            ++ " fundet. "
            ++ (if iL = 1 then "Ét relevant link er bedre end mange irrelevante."
              else "God intern linking.")
        else
          "Ingen interne links fundet. Tilsæt mindst ét relevant link til en relateret side." },
    { id := "meta"
      label := "Meta Description"
      status := if mHK && mGL then RecStatus.ok
        else if mHK then RecStatus.warn else RecStatus.error
      statusLabel := if mHK && mGL then "Optimised" else "1 fejl"
      detail :=
        if mHK then
          if mGL then
            "Meta description er optimeret ("
              ++ toString input.metaDescription.length ++ " tegn)."
          else
            "Meta description indeholder keyword, men er "
              ++ toString input.metaDescription.length
              ++ " tegn. Optimal: 120–160 tegn."
        else
          "Meta description mangler target keyword og/eller er for "
            ++ (if input.metaDescription.length < 120 then "kort" else "lang")
            ++ " (" ++ toString input.metaDescription.length
            ++ " tegn). Optimal: 120–160 tegn." },
    { id := "faq"
      label := "FAQ Section"
      status := if hasFaqRec input then RecStatus.ok else RecStatus.warn
      statusLabel := if hasFaqRec input then "Optimised" else "1 advarsel"
      detail :=
        if hasFaqRec input then
          "FAQ-sektion fundet. Sørg for at tilføje JSON-LD structured data for at trigger rich snippets i Google."
        else
          "Ingen FAQ-sektion fundet. Tilføj 3-5 spørgsmål/svar med JSON-LD structured data for bedre SERP-synlighed." } ]

/-! ### Content gaps -/

/-- The fixed 3-item TS `contentGaps` array.  The stray `',` at the end of
the second gap's all-covered description is present in the source template
literal and is kept (as `\x27,`). -/
def contentGapsVal (input : SeoInput) : List ContentGap :=
  let wc := wordCountVal input
  let missing := missingKeywords input
  [ { num := "Gap 01 · Indholdslængde"
      tag := "#4f7fff"
      title := if wc < 500 then "Siden er for kort" else "Indholdsdybde"
      description :=
        if wc < 500 then
          "Med kun ~" ++ toString wc
            ++ " ord er siden for tyndt indholdsalt. Konkurrenter har typisk 600–1000+ ord på tilsvarende kategorisider."
        else
          "Siden har " ++ toString wc
            ++ " ord. Overvej at uddybe med produktspecifikke detaljer og FAQ for at styrke autoriteten."
      color := "#4f7fff" },
    { num := "Gap 02 · Manglende keywords"
      tag := "#ff7043"
      title :=
        if 0 < missing.length then
          toString missing.length ++ " keywords mangler"
        else "Semantisk dækning"
      description :=
        if 0 < missing.length then
          "Disse keywords er ikke fundet på siden: "
            ++ String.intercalate (", ") (missing.take 4)
            ++ (if 4 < missing.length then " m.fl." else "")
            ++ ". Inkludér dem naturligt i brødtekst og overskrifter."
        else
          "Alle semantiske keywords er dækket. Overvej yderligere long-tail varianter for at fange mere trafik.\x27,"
      color := "#ff7043" },
    { num := "Gap 03 · Strukturerede data"
      tag := "#2dce89"
      title := "FAQ + JSON-LD mangler"
      description :=
        "Siden mangler sandsynligvis FAQ-sektion med JSON-LD structured data. Dette trigger rich snippets i Google og øger CTR markant for B2B-søgninger."
      color := "#2dce89" } ]

/-! ### Quick wins -/

/-- Quick win pushed by check 1 (meta description deficient). -/
def qwMetaItem (input : SeoInput) : QuickWin :=
  { priority := Priority.red
    title := "Opdatér meta description"
    detail :=
      "Tilføj \"" ++ input.targetKeyword ++ "\" og "
        ++ String.intercalate (", ") ((missingKeywords input).take 2)
        ++ " til meta beskrivelsen. Direkte CTR-effekt i SERP." }

/-- Quick win pushed by check 2 (word count below 500). -/
def qwContentItem (input : SeoInput) : QuickWin :=
  { priority := Priority.red
    title := "Tilføj mere indhold (~300 ord)"
    detail :=
      "Siden har kun " ++ toString (wordCountVal input)
        ++ " ord. Skriv et nyt afsnit der naturligt inkluderer de manglende keywords." }

/-- Quick win pushed by check 3 (some keyword missing). -/
def qwMissingItem (input : SeoInput) : QuickWin :=
  { priority := Priority.yellow
    title := "Inkludér manglende semantiske keywords"
    detail :=
      "Brug " ++ String.intercalate (", ") ((missingKeywords input).take 3)
        ++ " naturligt i brødtekst, produktbeskrivelser eller FAQ." }

/-- Quick win pushed by check 4 (no FAQ section detected). -/
def qwFaqItem : QuickWin :=
  { priority := Priority.yellow
    title := "Tilføj FAQ-sektion med JSON-LD"
    detail :=
      "3–5 spørgsmål og svar trigger rich snippets i Google og øger synlighed uden link-building." }

/-- Quick win pushed by check 5 (fewer than 3 internal links). -/
def qwLinksItem : QuickWin :=
  { priority := Priority.green
    title := "Byg interne links fra relaterede sider"
    detail :=
      "Link til denne side fra relaterede kategorier med naturlige ankertekster der inkluderer target keyword." }

/-- The TS `quickWins` array, built by five sequential conditional pushes. -/
def quickWinsVal (input : SeoInput) : List QuickWin :=
  let qws0 : List QuickWin := []
  let qws1 := if !metaHasKeyword input || !metaGoodLength input then
      qws0 ++ [qwMetaItem input] else qws0
  let qws2 := if wordCountVal input < 500 then
      qws1 ++ [qwContentItem input] else qws1
  let qws3 := if 0 < (missingKeywords input).length then
      qws2 ++ [qwMissingItem input] else qws2
  let qws4 := if !hasFaqQW input then qws3 ++ [qwFaqItem] else qws3
  if internalLinksVal input < 3 then qws4 ++ [qwLinksItem] else qws4

/-- TS `analyzeSeo`, assembling the `SeoResult`. -/
def analyzeSeo (input : SeoInput) : SeoResult :=
  { score := rawScore input
    maxScore := 100
    percentage := percentageVal input
    keywords := keywordResults input
    recommendations := recommendationsVal input
    contentGaps := contentGapsVal input
    quickWins := quickWinsVal input
    wordCount := wordCountVal input
    keywordsFound := keywordsFoundVal input
    keywordsMissing := keywordsMissingVal input
    keywordsOptimise := keywordsOptimiseVal input }

/-! ### Helper lemmas -/

/-- The empty pattern occurs in every list (JS `includes('')`). -/
theorem isSubListOf_nil (l : List Char) : isSubListOf [] l = true := by
  cases l <;> simp [isSubListOf, List.isPrefixOf]

/-- JS `s.includes('')` is always true. -/
theorem jsIncludes_empty_pat (s : String) : jsIncludes s "" = true := by
  unfold jsIncludes
  exact isSubListOf_nil s.data

/-- A list is a `isPrefixOf`-prefix of itself followed by anything. -/
theorem isPrefixOf_self_append (l t : List Char) : l.isPrefixOf (l ++ t) = true := by
  induction l with
  | nil => simp [List.isPrefixOf]
  | cons c rest ih => simp [List.isPrefixOf, ih]

/-- A pattern occurs in any list that contains it contiguously. -/
theorem isSubListOf_of_decomp (s pat t : List Char) :
    isSubListOf pat (s ++ (pat ++ t)) = true := by
  induction s with
  | nil =>
      simp only [List.nil_append]
      cases hp : pat with
      | nil => exact isSubListOf_nil t
      | cons p ps =>
          have : (p :: ps).isPrefixOf ((p :: ps) ++ t) = true :=
            isPrefixOf_self_append (p :: ps) t
          simp [isSubListOf, this]
  | cons c s' ih =>
      simp [isSubListOf, ih]

/-- `isPrefixOf` gives an explicit decomposition. -/
theorem isPrefixOf_exists {l₁ l₂ : List Char} (h : l₁.isPrefixOf l₂ = true) :
    ∃ t, l₂ = l₁ ++ t := by
  induction l₁ generalizing l₂ with
  | nil => exact ⟨l₂, rfl⟩
  | cons a as ih =>
      cases l₂ with
      | nil => simp [List.isPrefixOf] at h
      | cons b bs =>
          simp only [List.isPrefixOf, Bool.and_eq_true, beq_iff_eq] at h
          obtain ⟨rfl, h2⟩ := h
          obtain ⟨t, rfl⟩ := ih h2
          exact ⟨t, rfl⟩

/-- `isSubListOf` gives an explicit decomposition. -/
theorem isSubListOf_exists {pat l : List Char} (h : isSubListOf pat l = true) :
    ∃ s t, l = s ++ pat ++ t := by
  induction l with
  | nil =>
      simp only [isSubListOf, List.isEmpty_iff] at h
      exact ⟨[], [], by simp [h]⟩
  | cons c rest ih =>
      simp only [isSubListOf, Bool.or_eq_true] at h
      rcases h with h | h
      · obtain ⟨t, ht⟩ := isPrefixOf_exists h
        exact ⟨[], t, by simp [ht]⟩
      · obtain ⟨s, t, hst⟩ := ih h
        exact ⟨c :: s, t, by simp [hst]⟩

/-- The number of covered semantic keywords never exceeds the denominator. -/
theorem semanticCovered_le_total (input : SeoInput) :
    semanticCovered input ≤ semanticTotal input := by
  have hf := List.length_filter_le
    (fun kw => decide (1 ≤ countOccurrences (fullText input) kw))
    input.semanticKeywords
  unfold semanticCovered semanticTotal
  split_ifs with h
  · simp only [List.length_eq_zero] at h
    simp [h]
  · exact hf

/-- The denominator of the semantic-coverage factor is positive. -/
theorem semanticTotal_pos (input : SeoInput) : 0 < semanticTotal input := by
  unfold semanticTotal
  split_ifs with h <;> omega

/-- The semantic-coverage factor is bounded by its 15-point budget. -/
theorem scoreSemantic_le (input : SeoInput) : scoreSemantic input ≤ 15 := by
  have hc := semanticCovered_le_total input
  have ht := semanticTotal_pos input
  unfold scoreSemantic
  have h2 : 0 < 2 * semanticTotal input := by omega
  have hlt : (30 * semanticCovered input + semanticTotal input)
      / (2 * semanticTotal input) < 16 :=
    (Nat.div_lt_iff_lt_mul h2).mpr (by omega)
  omega

/-- The five sequential conditional pushes building `quickWinsVal` are the
concatenation of five conditional singletons, in check order. -/
theorem quickWins_concat (input : SeoInput) :
    quickWinsVal input =
      (if !metaHasKeyword input || !metaGoodLength input then [qwMetaItem input] else [])
        ++ (if wordCountVal input < 500 then [qwContentItem input] else [])
        ++ (if 0 < (missingKeywords input).length then [qwMissingItem input] else [])
        ++ (if !hasFaqQW input then [qwFaqItem] else [])
        ++ (if internalLinksVal input < 3 then [qwLinksItem] else []) := by
  simp only [quickWinsVal]
  split_ifs <;> simp

/-- With a non-empty target keyword, the `filter(Boolean)` keeps the target
at the head of `allKeywords`. -/
theorem allKeywords_cons (input : SeoInput) (h : input.targetKeyword ≠ "") :
    allKeywords input
      = input.targetKeyword :: input.semanticKeywords.filter (fun s => s != "") := by
  unfold allKeywords
  rw [List.filter_cons_of_pos]
  simpa using h

/-! ### Concrete inputs used by counterexamples and witnesses -/

/-- Input with no semantic keywords (claim C1). -/
def exC1 : SeoInput :=
  { url := "", competitorUrls := [], targetKeyword := "sko",
    semanticKeywords := [], pageTitle := "", metaDescription := "", h1 := "",
    bodyContent := "", wordCount := none, internalLinks := none, h2Count := none }

/-- Input with an empty target keyword but otherwise strong signals (claim C2). -/
def exC2 : SeoInput :=
  { url := "", competitorUrls := [], targetKeyword := "",
    semanticKeywords := ["hello"],
    pageTitle := "abcdefghijklmnopqrstuvwxyz0123456789", metaDescription := "m",
    h1 := "Velkommen", bodyContent := "hello", wordCount := some 800,
    internalLinks := some 2, h2Count := some 2 }

/-! Claim C1 — spec: "if no semantic keywords supplied, denominator defaults
to 1 (full credit awarded)" and "semanticKeywords = [] ⇒ semantic-coverage
sub-score = 15".  In the code, zero covered keywords over the defaulted
denominator 1 gives `Math.round(0 * 15) = 0`, not 15. -/

/-- C1 counterexample: for the concrete input `exC1` with an empty
semantic-keyword list, the semantic-coverage sub-score is not the claimed
15 points. -/
theorem c1_counterexample : exC1.semanticKeywords = [] ∧ scoreSemantic exC1 ≠ 15 := by
  constructor
  · rfl
  · decide

/-- C1 (amended): for every input whose `semanticKeywords` list is empty,
the denominator defaults to 1 but no keyword is covered, so the
semantic-coverage sub-score is 0 (no credit), not the full 15 points. -/
theorem c1_empty_semantics_zero (input : SeoInput)
    (h : input.semanticKeywords = []) : scoreSemantic input = 0 := by
  unfold scoreSemantic semanticCovered semanticTotal
  rw [h]
  simp

/-- C1 witness: the amended theorem applied at the concrete input `exC1`. -/
theorem c1_witness : exC1.semanticKeywords = [] ∧ scoreSemantic exC1 = 0 :=
  ⟨rfl, c1_empty_semantics_zero exC1 rfl⟩

/-! Claim C2 — spec: "empty target keyword yields a near-zero score rather
than failing".  The engine indeed never fails, but JS `includes('')` is
true for every string, so the three keyword-containment checks award their
points vacuously: the score is at least 23 and can reach 85. -/

/-- C2 counterexample: the concrete input `exC2` has an empty target
keyword, yet the engine returns a total score of 78 out of 100 — not a
near-zero score. -/
theorem c2_counterexample : exC2.targetKeyword = "" ∧ (analyzeSeo exC2).score = 78 := by
  constructor
  · rfl
  · decide

/-- C2 (amended): for every input whose target keyword is the empty string
the engine still produces a result (the embedding is total); the
target-density factor contributes 0, but the title/meta/H1 containment
checks succeed vacuously (the empty string is a substring of everything),
so the total score is at least 23 — not near zero. -/
theorem c2_empty_target (input : SeoInput) (h : input.targetKeyword = "") :
    scoreDensity input = 0 ∧ 23 ≤ (analyzeSeo input).score := by
  have hlow : jsToLower input.targetKeyword = "" := by
    rw [h]
    rfl
  have htHK : titleHasKeyword input = true := by
    unfold titleHasKeyword
    rw [hlow]
    exact jsIncludes_empty_pat _
  have hmHK : metaHasKeyword input = true := by
    unfold metaHasKeyword
    rw [hlow]
    exact jsIncludes_empty_pat _
  have hhHK : h1HasKeyword input = true := by
    unfold h1HasKeyword
    rw [hlow]
    exact jsIncludes_empty_pat _
  constructor
  · simp [scoreDensity, targetCount, countOccurrences, h]
  · show 23 ≤ rawScore input
    have h1 : 10 ≤ scoreTitle input := by
      unfold scoreTitle
      rw [if_pos htHK]
      exact Nat.le_add_right 10 _
    have h2 : 8 ≤ scoreMeta input := by
      unfold scoreMeta
      rw [if_pos hmHK]
      exact Nat.le_add_right 8 _
    have h3 : 5 ≤ scoreH1 input := by
      unfold scoreH1
      rw [if_pos hhHK]
      exact Nat.le_add_left 5 _
    unfold rawScore
    omega

/-- C2 witness: the amended theorem applied at the concrete input `exC2`. -/
theorem c2_witness :
    exC2.targetKeyword = "" ∧ scoreDensity exC2 = 0 ∧ 23 ≤ (analyzeSeo exC2).score :=
  ⟨rfl, (c2_empty_target exC2 rfl).1, (c2_empty_target exC2 rfl).2⟩

/-! Claim C3 — spec: "overrides take precedence over the engine's own
heuristics when present", with the claim adding "an explicitly supplied
internal-link count of 0 yields link count 0".  Word-count and subheading
overrides are used as-is (including 0), but the source computes
`input.internalLinks ?? 0` and then re-detects whenever that value is 0,
so a supplied link count of 0 does trigger heuristic detection. -/

/-- Input supplying an internal-link override of 0 while the body contains
a detectable bare URL (claim C3). -/
def exC3 : SeoInput :=
  { url := "", competitorUrls := [], targetKeyword := "x",
    semanticKeywords := [], pageTitle := "", metaDescription := "", h1 := "",
    bodyContent := "se http://a.dk nu", wordCount := none,
    internalLinks := some 0, h2Count := none }

/-- Input supplying all three overrides with nonzero link count (claim C3
witness). -/
def exC3w : SeoInput :=
  { url := "", competitorUrls := [], targetKeyword := "x",
    semanticKeywords := [], pageTitle := "", metaDescription := "", h1 := "",
    bodyContent := "se http://a.dk nu", wordCount := some 7,
    internalLinks := some 2, h2Count := some 4 }

/-- C3 counterexample: the concrete input `exC3` explicitly supplies an
internal-link count of 0, yet the engine runs its heuristic detection and
uses link count 1. -/
theorem c3_counterexample : exC3.internalLinks = some 0 ∧ internalLinksVal exC3 = 1 := by
  constructor
  · rfl
  · decide

/-- C3 (amended): a present word-count override and a present subheading
override are always used as supplied (heuristic detection is skipped),
and a present internal-link override is used as supplied whenever it is
nonzero; a supplied internal-link count of 0 is indistinguishable from an
absent one and triggers heuristic detection. -/
theorem c3_overrides (input : SeoInput) :
    (∀ n, input.wordCount = some n → wordCountVal input = n) ∧
    (∀ m, input.h2Count = some m → h2CountVal input = m) ∧
    (∀ k, input.internalLinks = some k → k ≠ 0 → internalLinksVal input = k) := by
  refine ⟨?_, ?_, ?_⟩
  · intro n hn
    unfold wordCountVal
    rw [hn]
  · intro m hm
    unfold h2CountVal
    rw [hm]
  · intro k hk hk0
    unfold internalLinksVal
    rw [hk]
    simp [hk0]

/-- C3 witness: the amended theorem applied at the concrete input `exC3w`,
whose three overrides are 7 words, 4 subheadings and 2 internal links. -/
theorem c3_witness :
    wordCountVal exC3w = 7 ∧ h2CountVal exC3w = 4 ∧ internalLinksVal exC3w = 2 :=
  ⟨(c3_overrides exC3w).1 7 rfl, (c3_overrides exC3w).2.1 4 rfl,
    (c3_overrides exC3w).2.2 2 rfl (by decide)⟩

/-! Claim C4 — spec: "|keywordRecords| = 1 + |semanticKeywords| after
removing empty/whitespace-only entries, order preserved".  The source's
`filter(Boolean)` removes only empty strings; whitespace-only strings are
truthy and are kept, and an empty target keyword is itself removed. -/

/-- Input whose only semantic keyword is a whitespace-only string (claim C4). -/
def exC4 : SeoInput :=
  { url := "", competitorUrls := [], targetKeyword := "x",
    semanticKeywords := [" "], pageTitle := "", metaDescription := "", h1 := "",
    bodyContent := "", wordCount := none, internalLinks := none, h2Count := none }

/-- Input with one empty and two non-empty semantic keywords (claim C4
witness). -/
def exC4w : SeoInput :=
  { url := "", competitorUrls := [], targetKeyword := "x",
    semanticKeywords := ["a", "", "b"], pageTitle := "", metaDescription := "",
    h1 := "", bodyContent := "", wordCount := none, internalLinks := none,
    h2Count := none }

/-- The cardinality the claim asserts, modelled from the claim's own words:
one target entry plus the semantic keywords that are neither empty nor
whitespace-only. -/
def claimedKeywordCount (input : SeoInput) : Nat :=
  1 + (input.semanticKeywords.filter (fun s => !s.data.all jsIsSpace)).length

/-- C4 counterexample: for the concrete input `exC4`, whose single semantic
keyword is the whitespace-only string `" "`, the engine produces 2 keyword
records while the claim predicts `1 + 0 = 1`: whitespace-only entries are
not removed. -/
theorem c4_counterexample :
    exC4.semanticKeywords = [" "] ∧ (analyzeSeo exC4).keywords.length = 2
      ∧ claimedKeywordCount exC4 = 1 := by
  refine ⟨rfl, ?_, ?_⟩ <;> decide

/-- C4 (amended): the keyword-record list is the target keyword followed by
the semantic keywords, with exactly the empty-string entries removed
(whitespace-only entries are kept), in input order; when the target
keyword is non-empty the list therefore has `1 + ` (number of non-empty
semantic keywords) entries. -/
theorem c4_keyword_list (input : SeoInput) :
    (analyzeSeo input).keywords.map (fun k => k.keyword)
        = (input.targetKeyword :: input.semanticKeywords).filter (fun s => s != "") ∧
      (input.targetKeyword ≠ "" →
        (analyzeSeo input).keywords.length
          = 1 + (input.semanticKeywords.filter (fun s => s != "")).length) := by
  constructor
  · show (keywordResults input).map (fun k => k.keyword) = _
    unfold keywordResults allKeywords
    rw [List.map_map]
    exact List.map_id' _
  · intro h
    show (keywordResults input).length = _
    unfold keywordResults
    rw [List.length_map, allKeywords_cons input h, List.length_cons]
    omega

/-- C4 witness: the amended cardinality applied at the concrete input
`exC4w` with semantic keywords `["a", "", "b"]`, giving `1 + 2 = 3`
records. -/
theorem c4_witness :
    (analyzeSeo exC4w).keywords.length
      = 1 + (exC4w.semanticKeywords.filter (fun s => s != "")).length :=
  (c4_keyword_list exC4w).2 (by decide)

/-! Claim C5 — spec: "Target keyword's recommended range = [5,9]; every
other (semantic) keyword's range = [2,4]", plus the classification law.
The source decides `isTarget` by string equality `kw === input.targetKeyword`,
so a semantic keyword equal to the target string also receives the target
range [5,9]. -/

/-- Input whose semantic keyword equals the target keyword (claim C5). -/
def exC5 : SeoInput :=
  { url := "", competitorUrls := [], targetKeyword := "a",
    semanticKeywords := ["a"], pageTitle := "", metaDescription := "", h1 := "",
    bodyContent := "", wordCount := none, internalLinks := none, h2Count := none }

/-- C5 counterexample: for the concrete input `exC5` the second keyword
record — produced from the semantic keyword `"a"` — carries the target
range [5,9] rather than the claimed semantic range [2,4]. -/
theorem c5_counterexample :
    exC5.semanticKeywords = ["a"] ∧
      (analyzeSeo exC5).keywords.map (fun k => (k.keyword, k.recommendedMin, k.recommendedMax))
        = [("a", 5, 9), ("a", 5, 9)] := by
  constructor
  · rfl
  · decide

/-- C5 (amended): every keyword record whose keyword string equals the
target keyword carries range [5,9], every other record carries [2,4] (a
semantic keyword identical to the target therefore gets [5,9]); and for
occurrence count `c` and recommended minimum `m` the status is `Mangler`
(Missing) when `c = 0`, `Optimer` (NeedsWork) when `0 < c < m`, and `God`
(Covered) when `c ≥ m`. -/
theorem c5_ranges_status (input : SeoInput) (r : KeywordResult)
    (hr : r ∈ (analyzeSeo input).keywords) :
    (r.recommendedMin = if r.keyword = input.targetKeyword then 5 else 2) ∧
    (r.recommendedMax = if r.keyword = input.targetKeyword then 9 else 4) ∧
    (r.currentCount = 0 → r.status = KeywordStatus.Mangler) ∧
    (r.currentCount ≠ 0 → r.currentCount < r.recommendedMin →
      r.status = KeywordStatus.Optimer) ∧
    (r.recommendedMin ≤ r.currentCount → r.status = KeywordStatus.God) := by
  have hr' : r ∈ (allKeywords input).map (mkKeywordResult input) := hr
  rw [List.mem_map] at hr'
  obtain ⟨kw, _, rfl⟩ := hr'
  refine ⟨rfl, rfl, ?_, ?_, ?_⟩
  · intro h0
    simp only [mkKeywordResult] at h0 ⊢
    rw [if_pos h0]
  · intro h0 hlt
    simp only [mkKeywordResult] at h0 hlt ⊢
    rw [if_neg h0, if_pos hlt]
  · intro hge
    simp only [mkKeywordResult] at hge ⊢
    have h5 : (2 : Nat) ≤ if kw = input.targetKeyword then 5 else 2 := by
      split_ifs <;> omega
    rw [if_neg (by omega), if_neg (by omega)]

/-- The keyword record produced for `exC5`'s target/semantic keyword `"a"`. -/
def recC5 : KeywordResult :=
  { keyword := "a", status := KeywordStatus.Mangler, currentCount := 0,
    recommendedMin := 5, recommendedMax := 9 }

/-- C5 witness: the amended theorem applied to the concrete record `recC5`
(a member of `(analyzeSeo exC5).keywords`). -/
theorem c5_witness :
    (recC5.recommendedMin = if recC5.keyword = exC5.targetKeyword then 5 else 2) ∧
    (recC5.recommendedMax = if recC5.keyword = exC5.targetKeyword then 9 else 4) ∧
    (recC5.currentCount = 0 → recC5.status = KeywordStatus.Mangler) ∧
    (recC5.currentCount ≠ 0 → recC5.currentCount < recC5.recommendedMin →
      recC5.status = KeywordStatus.Optimer) ∧
    (recC5.recommendedMin ≤ recC5.currentCount → recC5.status = KeywordStatus.God) :=
  c5_ranges_status exC5 recC5 (by decide)

/-! Claim C6 — spec: "For all inputs: 0 ≤ rawScore ≤ 100 and
percentage = min(round(rawScore), 100)".  The raw score is a sum of eight
independently bounded non-negative contributions (15+15+10+20+15+15+5+5 =
100); in the embedding it lives in `Nat`, so `0 ≤ rawScore` holds by type
and `Math.round` on the integer score is the identity. -/

/-- C6: for every input the raw score is at most 100 (it is non-negative by
construction), and the returned percentage equals
`min(rawScore, 100)` — the claim's `min(round(rawScore), 100)` with the
integer round elided. -/
theorem c6_score_bounds (input : SeoInput) :
    (analyzeSeo input).score ≤ 100 ∧
      (analyzeSeo input).percentage = min ((analyzeSeo input).score) 100 := by
  constructor
  · show rawScore input ≤ 100
    have h1 : scoreTitle input ≤ 15 := by
      unfold scoreTitle
      split_ifs <;> omega
    have h2 : scoreMeta input ≤ 15 := by
      unfold scoreMeta
      split_ifs <;> omega
    have h3 : scoreH1 input ≤ 10 := by
      unfold scoreH1
      split_ifs <;> omega
    have h4 : scoreContent input ≤ 20 := by
      simp only [scoreContent]
      split_ifs <;> omega
    have h5 : scoreDensity input ≤ 15 := by
      simp only [scoreDensity]
      split_ifs <;> omega
    have h6 : scoreSemantic input ≤ 15 := scoreSemantic_le input
    have h7 : scoreSubheadings input ≤ 5 := by
      unfold scoreSubheadings
      split_ifs <;> omega
    have h8 : scoreLinks input ≤ 5 := by
      unfold scoreLinks
      split_ifs <;> omega
    unfold rawScore
    omega
  · rfl

/-! Claim C7 — spec: five independent conditional quick-win checks in a
fixed order, each appending at most one item, with priorities high, high,
medium, medium, low (source colors red, red, yellow, yellow, green). -/

/-- C7: for every input, the quick-win list — here projected to
(priority, title) pairs — is exactly the concatenation of five conditional
singletons in the fixed check order: (1) meta description deficient ⇒ red
(high), (2) word count < 500 ⇒ red (high), (3) some keyword missing ⇒
yellow (medium), (4) no FAQ detected ⇒ yellow (medium), (5) fewer than 3
internal links ⇒ green (low); a false check contributes nothing. -/
theorem c7_quickwin_structure (input : SeoInput) :
    (analyzeSeo input).quickWins.map (fun q => (q.priority, q.title)) =
      (if !metaHasKeyword input || !metaGoodLength input then
          [(Priority.red, "Opdatér meta description")] else [])
        ++ (if wordCountVal input < 500 then
          [(Priority.red, "Tilføj mere indhold (~300 ord)")] else [])
        ++ (if 0 < (missingKeywords input).length then
          [(Priority.yellow, "Inkludér manglende semantiske keywords")] else [])
        ++ (if !hasFaqQW input then
          [(Priority.yellow, "Tilføj FAQ-sektion med JSON-LD")] else [])
        ++ (if internalLinksVal input < 3 then
          [(Priority.green, "Byg interne links fra relaterede sider")] else []) := by
  show (quickWinsVal input).map _ = _
  rw [quickWins_concat]
  split_ifs <;>
    simp [qwMetaItem, qwContentItem, qwMissingItem, qwFaqItem, qwLinksItem]

/-! Claim C8 — spec: exactly 3 fixed content-gap topics; the content-depth
gap chooses its variant by word count < 500, the missing-keywords gap by
emptiness of the missing list, listing the first 4 missing keywords and
appending the `m.fl.` ("and more") suffix exactly when more than 4 are
missing. -/

/-- C8: for every input the content-gap list has exactly the 3 fixed topics
(content depth, missing keywords, structured data); the depth gap chooses
both its title and its description by the word count < 500 versus ≥ 500
threshold, and the missing-keywords gap's description is chosen by whether
the missing list is non-empty, joining the first 4 missing keywords in
order and appending the " m.fl." suffix exactly when more than 4 are
missing. -/
theorem c8_content_gaps (input : SeoInput) :
    (analyzeSeo input).contentGaps.length = 3 ∧
    ((analyzeSeo input).contentGaps.map (fun g => g.num))
        = ["Gap 01 · Indholdslængde", "Gap 02 · Manglende keywords",
           "Gap 03 · Strukturerede data"] ∧
    ((analyzeSeo input).contentGaps[0]?.map (fun g => g.title))
        = some (if wordCountVal input < 500 then "Siden er for kort"
            else "Indholdsdybde") ∧
    ((analyzeSeo input).contentGaps[0]?.map (fun g => g.description))
        = some (if wordCountVal input < 500 then
            "Med kun ~" ++ toString (wordCountVal input)
              ++ " ord er siden for tyndt indholdsalt. Konkurrenter har typisk 600–1000+ ord på tilsvarende kategorisider."
          else
            "Siden har " ++ toString (wordCountVal input)
              ++ " ord. Overvej at uddybe med produktspecifikke detaljer og FAQ for at styrke autoriteten.") ∧
    ((analyzeSeo input).contentGaps[1]?.map (fun g => g.description))
        = some (if 0 < (missingKeywords input).length then
            "Disse keywords er ikke fundet på siden: "
              ++ String.intercalate (", ") ((missingKeywords input).take 4)
              ++ (if 4 < (missingKeywords input).length then " m.fl." else "")
              ++ ". Inkludér dem naturligt i brødtekst og overskrifter."
          else
            "Alle semantiske keywords er dækket. Overvej yderligere long-tail varianter for at fange mere trafik.\x27,") := by
  exact ⟨rfl, rfl, rfl, rfl, rfl⟩

/-! Claim C9 — spec: the FAQ-detection predicate is evaluated with
identical logic by the recommendation generator and the quick-win
generator, so the FAQ recommendation has severity ok exactly when the FAQ
quick win is not appended; a body containing the literal word "FAQ"
triggers detection. -/

/-- Membership in a conditional singleton list. -/
theorem mem_ite_singleton {c : Prop} [Decidable c] (x a : QuickWin) :
    (a ∈ if c then [x] else []) ↔ c ∧ a = x := by
  split_ifs with h <;> simp [h]

/-- The lower-cased, marker-stripped text of `"FAQ"` is `"faq"`. -/
theorem faq_map_filter :
    ((("FAQ").data.map jsToLowerChar).filter
      (fun c => !(c == '_' || c == '*' || c == '#'))) = ("faq").data := by
  decide

/-- A body containing the literal `"FAQ"` makes the recommendation-side
FAQ detector true. -/
theorem hasFaqRec_of_FAQ (input : SeoInput)
    (hFAQ : jsIncludes input.bodyContent ("FAQ") = true) :
    hasFaqRec input = true := by
  obtain ⟨s, t, hst⟩ := isSubListOf_exists hFAQ
  have hclean : isSubListOf ("faq").data
      (((input.bodyContent.data ++ input.h1.data ++ input.pageTitle.data).map
          jsToLowerChar).filter
        (fun c => !(c == '_' || c == '*' || c == '#'))) = true := by
    rw [hst]
    simp only [List.append_assoc, List.map_append, List.filter_append]
    rw [faq_map_filter]
    exact isSubListOf_of_decomp _ _ _
  simp only [hasFaqRec]
  rw [hclean]
  simp

/-- C9: for every input the two textually duplicated FAQ detectors agree;
the FAQ recommendation (index 6) has severity ok iff no quick-win item
with the FAQ title is appended; and when the body contains the literal
word "FAQ" the severity is ok and the FAQ quick win is absent. -/
theorem c9_faq_agreement (input : SeoInput) :
    hasFaqRec input = hasFaqQW input ∧
    (((analyzeSeo input).recommendations[6]?.map (fun r => r.status)) = some RecStatus.ok
      ↔ ∀ q ∈ (analyzeSeo input).quickWins,
          q.title ≠ "Tilføj FAQ-sektion med JSON-LD") ∧
    (jsIncludes input.bodyContent ("FAQ") = true →
      ((analyzeSeo input).recommendations[6]?.map (fun r => r.status)) = some RecStatus.ok
        ∧ ∀ q ∈ (analyzeSeo input).quickWins,
            q.title ≠ "Tilføj FAQ-sektion med JSON-LD") := by
  have hdup : hasFaqRec input = hasFaqQW input := rfl
  have hstat : ((analyzeSeo input).recommendations[6]?.map (fun r => r.status))
      = some (if hasFaqRec input then RecStatus.ok else RecStatus.warn) := rfl
  have habsent : (∀ q ∈ (analyzeSeo input).quickWins,
      q.title ≠ "Tilføj FAQ-sektion med JSON-LD") ↔ hasFaqQW input = true := by
    show (∀ q ∈ quickWinsVal input, _) ↔ _
    constructor
    · intro hall
      by_contra hq
      have hq' : hasFaqQW input = false := by
        cases hqq : hasFaqQW input
        · rfl
        · exact absurd hqq hq
      refine absurd rfl (hall qwFaqItem ?_)
      rw [quickWins_concat]
      simp [List.mem_append, mem_ite_singleton, hq']
    · intro hq q hqmem
      rw [quickWins_concat] at hqmem
      simp only [List.mem_append, mem_ite_singleton] at hqmem
      rcases hqmem with ((((⟨_, rfl⟩ | ⟨_, rfl⟩) | ⟨_, rfl⟩) | ⟨hc, rfl⟩) | ⟨_, rfl⟩)
      · simp only [qwMetaItem]
        decide
      · simp only [qwContentItem]
        decide
      · simp only [qwMissingItem]
        decide
      · rw [hq] at hc
        simp at hc
      · simp only [qwLinksItem]
        decide
  have hiff : (((analyzeSeo input).recommendations[6]?.map (fun r => r.status))
        = some RecStatus.ok
      ↔ ∀ q ∈ (analyzeSeo input).quickWins,
          q.title ≠ "Tilføj FAQ-sektion med JSON-LD") := by
    rw [hstat, habsent, ← hdup]
    cases hr : hasFaqRec input
    · simp
    · simp
  refine ⟨hdup, hiff, ?_⟩
  intro hFAQ
  have hfq := hasFaqRec_of_FAQ input hFAQ
  have hok : ((analyzeSeo input).recommendations[6]?.map (fun r => r.status))
      = some RecStatus.ok := by
    rw [hstat, hfq]
    rfl
  exact ⟨hok, hiff.mp hok⟩

/-- Input whose body contains the literal word "FAQ" (claim C9 witness). -/
def exC9 : SeoInput :=
  { url := "", competitorUrls := [], targetKeyword := "x",
    semanticKeywords := [], pageTitle := "", metaDescription := "", h1 := "",
    bodyContent := "Se vores FAQ her", wordCount := none, internalLinks := none,
    h2Count := none }

/-- C9 witness: the theorem's FAQ-containing-body implication applied at
the concrete input `exC9`. -/
theorem c9_witness :
    ((analyzeSeo exC9).recommendations[6]?.map (fun r => r.status)) = some RecStatus.ok
      ∧ ∀ q ∈ (analyzeSeo exC9).quickWins,
          q.title ≠ "Tilføj FAQ-sektion med JSON-LD" :=
  (c9_faq_agreement exC9).2.2 (by decide)

/-! Claim C10 — the missing-keyword list driving the missing-keywords
content gap and the medium-priority quick win is drawn from all keyword
records, the target keyword included: a target with zero occurrences
appears first among the missing keywords and alone selects the non-empty
gap variant and the quick win.  (The spec's data model requires a
non-empty target keyword; with an empty target the record is filtered out
and the property is vacuous, so it is assumed here.) -/

/-- C10: for every input with a non-empty target keyword that has zero
occurrences in the combined text, the target keyword is the first entry of
the missing-keyword list, the missing-keywords content gap takes its
non-empty variant (title "N keywords mangler"), and the medium-priority
missing-keywords quick win is appended — regardless of whether the
semantic keywords are covered. -/
theorem c10_missing_includes_target (input : SeoInput)
    (h : input.targetKeyword ≠ "")
    (h0 : countOccurrences (fullText input) input.targetKeyword = 0) :
    (missingKeywords input).head? = some input.targetKeyword ∧
    ((analyzeSeo input).contentGaps[1]?.map (fun g => g.title))
      = some (toString (missingKeywords input).length ++ " keywords mangler") ∧
    qwMissingItem input ∈ (analyzeSeo input).quickWins := by
  have hcons : ∃ l', missingKeywords input = input.targetKeyword :: l' := by
    unfold missingKeywords keywordResults
    rw [allKeywords_cons input h, List.map_cons, List.filter_cons_of_pos, List.map_cons]
    · exact ⟨_, rfl⟩
    · simp [mkKeywordResult, h0]
      rfl
  obtain ⟨l', hl⟩ := hcons
  have hpos : 0 < (missingKeywords input).length := by
    rw [hl]
    simp
  refine ⟨?_, ?_, ?_⟩
  · rw [hl]
    rfl
  · show ((contentGapsVal input)[1]?.map (fun g => g.title)) = _
    simp only [contentGapsVal]
    rw [if_pos hpos]
    rfl
  · show qwMissingItem input ∈ quickWinsVal input
    rw [quickWins_concat]
    simp only [List.mem_append, mem_ite_singleton]
    exact Or.inl (Or.inl (Or.inr ⟨hpos, trivial⟩))

/-- Input whose target keyword "zebra" never occurs while its semantic
keyword "hello" is covered (claim C10 witness). -/
def exC10 : SeoInput :=
  { url := "", competitorUrls := [], targetKeyword := "zebra",
    semanticKeywords := ["hello"], pageTitle := "", metaDescription := "",
    h1 := "", bodyContent := "hello hello", wordCount := none,
    internalLinks := none, h2Count := none }

/-- C10 witness: the theorem applied at the concrete input `exC10`, whose
semantic keyword is covered but whose target keyword is absent. -/
theorem c10_witness :
    (missingKeywords exC10).head? = some exC10.targetKeyword ∧
    ((analyzeSeo exC10).contentGaps[1]?.map (fun g => g.title))
      = some (toString (missingKeywords exC10).length ++ " keywords mangler") ∧
    qwMissingItem exC10 ∈ (analyzeSeo exC10).quickWins :=
  c10_missing_includes_target exC10 (by decide) (by decide)

end SeoEngine
